import Mathlib

/-!
Verification development for the code-graph indexing and retrieval core
(src/code_graph).  Python functions are shallowly embedded as Lean
definitions: floats become rationals, Python dicts become insertion-ordered
association lists, exceptions become Except values.  Each definition carries
a comment naming the source location it embeds.
-/

namespace CodeGraph

/-! Confidence utility, embedding src/code_graph/utils/confidence.py. -/

/-- Embeds calculate_parse_confidence (utils/confidence.py lines 17-47).
Floats are modelled as rationals; max/min implement the final clamp
max(0.0, min(1.0, confidence)). -/
def calculate_parse_confidence (error_count total_nodes : Nat) (has_syntax_errors : Bool) : ℚ :=
  if total_nodes = 0 then 0
  else
    -- Base confidence
    let confidence : ℚ := 1
    -- Reduce based on syntax errors
    let confidence := if has_syntax_errors then confidence * (7/10) else confidence
    -- Reduce based on ERROR node proportion
    let confidence :=
      if error_count > 0 then
        confidence * (1 - ((error_count : ℚ) / (total_nodes : ℚ)) * (1/2))
      else confidence
    max 0 (min 1 confidence)

/-! Hybrid scorer, embedding src/code_graph/retrieval/hybrid_scorer.py and
the ScoreBreakdown record of src/code_graph/models/context_pack.py. -/

/-- Embeds the ScoreBreakdown pydantic model (models/context_pack.py lines 9-25). -/
structure ScoreBreakdown where
  semantic_score : ℚ
  graph_score : ℚ
  execution_score : ℚ
  hybrid_score : ℚ
  deriving DecidableEq

/-- Embeds the HybridScorer object state (retrieval/hybrid_scorer.py lines 37-39). -/
structure HybridScorer where
  semantic_weight : ℚ
  graph_weight : ℚ
  execution_weight : ℚ
  deriving DecidableEq

/-- Embeds HybridScorer.__init__ (retrieval/hybrid_scorer.py lines 17-39):
raises ValueError when abs(total - 1.0) > 0.001, otherwise stores the three
weights unchanged. -/
def mkHybridScorer (semantic_weight graph_weight execution_weight : ℚ) :
    Except String HybridScorer :=
  let total := semantic_weight + graph_weight + execution_weight
  if |total - 1| > 1/1000 then
    .error "Weights must sum to 1.0"
  else
    .ok ⟨semantic_weight, graph_weight, execution_weight⟩

/-- Embeds HybridScorer.score (retrieval/hybrid_scorer.py lines 41-68). -/
def HybridScorer.score (self : HybridScorer)
    (semantic_score graph_score execution_score : ℚ) : ScoreBreakdown :=
  let hybrid :=
    self.semantic_weight * semantic_score
      + self.graph_weight * graph_score
      + self.execution_weight * execution_score
  ⟨semantic_score, graph_score, execution_score, hybrid⟩

/-- Embeds HybridScorer.score_query (retrieval/hybrid_scorer.py lines 70-98).
The embedding keeps the placeholder semantic score 0.8, the 1/(1+d) decay and
the binary execution score exactly as written in the source; the embedding
vectors are carried but unused, as in the source. -/
def HybridScorer.score_query (self : HybridScorer)
    (_query_embedding _candidate_embedding : List ℚ)
    (graph_distance : Nat) (has_execution_signals : Bool) : ScoreBreakdown :=
  let semantic_score : ℚ := 8/10
  let graph_score : ℚ := 1 / (1 + (graph_distance : ℚ))
  let execution_score : ℚ := if has_execution_signals then 1 else 0
  self.score semantic_score graph_score execution_score

/-- The default scorer HybridScorer() (weights 0.4, 0.4, 0.2). -/
def defaultScorer : HybridScorer := ⟨4/10, 4/10, 2/10⟩

/-- C6: calculate_parse_confidence returns 0 when total_nodes = 0, otherwise
the clamp to [0,1] of the product 1.0 · (0.7 if syntax errors) ·
(1 - error_ratio·0.5 if error_count > 0); in all cases the result lies in
[0.0, 1.0]. -/
theorem parse_confidence_formula_and_range
    (error_count total_nodes : Nat) (has_syntax_errors : Bool) :
    calculate_parse_confidence error_count total_nodes has_syntax_errors
      = (if total_nodes = 0 then 0
         else max 0 (min 1
           ((if has_syntax_errors then (7:ℚ)/10 else 1)
             * (if error_count > 0 then
                  1 - ((error_count : ℚ) / (total_nodes : ℚ)) * (1/2)
                else 1))))
    ∧ 0 ≤ calculate_parse_confidence error_count total_nodes has_syntax_errors
    ∧ calculate_parse_confidence error_count total_nodes has_syntax_errors ≤ 1 := by
  refine ⟨?_, ?_, ?_⟩
  · unfold calculate_parse_confidence
    rcases has_syntax_errors with _ | _ <;> rcases Nat.eq_zero_or_pos error_count with h | h <;>
      simp [h]
  · unfold calculate_parse_confidence
    split
    · exact le_refl 0
    · exact le_max_left 0 _
  · unfold calculate_parse_confidence
    split
    · exact zero_le_one
    · exact max_le zero_le_one (min_le_left 1 _)

/-- C10: for total_nodes > 0 and error_count ≤ total_nodes the parse
confidence is at least 0.35 = 7/20, and it is 0 whenever total_nodes = 0;
hence a non-empty tree never receives zero confidence. -/
theorem parse_confidence_lower_bound
    (error_count total_nodes : Nat) (has_syntax_errors : Bool)
    (hpos : 0 < total_nodes) (hle : error_count ≤ total_nodes) :
    (7:ℚ)/20 ≤ calculate_parse_confidence error_count total_nodes has_syntax_errors
    ∧ calculate_parse_confidence error_count total_nodes has_syntax_errors ≠ 0
    ∧ ∀ (e : Nat) (s : Bool), calculate_parse_confidence e 0 s = 0 := by
  have htQ : (0:ℚ) < (total_nodes : ℚ) := by exact_mod_cast hpos
  have hratio : ((error_count : ℚ) / (total_nodes : ℚ)) ≤ 1 := by
    rw [div_le_one htQ]; exact_mod_cast hle
  have hratio0 : (0:ℚ) ≤ ((error_count : ℚ) / (total_nodes : ℚ)) := by
    positivity
  have hr2 : (1:ℚ)/2 ≤ 1 - ((error_count : ℚ) / (total_nodes : ℚ)) * (1/2) := by nlinarith
  have hr3 : 1 - ((error_count : ℚ) / (total_nodes : ℚ)) * (1/2) ≤ 1 := by nlinarith
  have key : (7:ℚ)/20 ≤ calculate_parse_confidence error_count total_nodes has_syntax_errors := by
    unfold calculate_parse_confidence
    rw [if_neg hpos.ne']
    rcases has_syntax_errors with _ | _ <;>
      rcases Nat.eq_zero_or_pos error_count with h0 | h0
    · simp [h0]
      norm_num
    · simp only [Bool.false_eq_true, if_false, one_mul, if_pos (by exact h0 : error_count > 0)]
      rw [min_eq_right hr3]
      exact le_trans (by linarith) (le_max_right 0 _)
    · simp [h0]
      norm_num
    · simp only [if_true, one_mul, if_pos (by exact h0 : error_count > 0)]
      have hprod : (7:ℚ)/20 ≤ (7:ℚ)/10 * (1 - ((error_count : ℚ) / (total_nodes : ℚ)) * (1/2)) := by
        nlinarith
      have hprod1 : (7:ℚ)/10 * (1 - ((error_count : ℚ) / (total_nodes : ℚ)) * (1/2)) ≤ 1 := by
        nlinarith
      rw [min_eq_right hprod1]
      exact le_trans hprod (le_max_right 0 _)
  refine ⟨key, ?_, ?_⟩
  · intro h0
    rw [h0] at key
    norm_num at key
  · intro e s
    unfold calculate_parse_confidence
    simp

/-- Witness for parse_confidence_lower_bound at error_count = 2,
total_nodes = 4, has_syntax_errors = true. -/
theorem parse_confidence_lower_bound_witness :
    (7:ℚ)/20 ≤ calculate_parse_confidence 2 4 true
    ∧ calculate_parse_confidence 2 4 true ≠ 0
    ∧ ∀ (e : Nat) (s : Bool), calculate_parse_confidence e 0 s = 0 :=
  parse_confidence_lower_bound 2 4 true (by decide) (by decide)

/-- C7: mkHybridScorer fails exactly when the weights' sum differs from 1 by
more than 0.001; when it does not fail, the constructed scorer stores exactly
the supplied weights. -/
theorem hybrid_scorer_weight_validation (w1 w2 w3 : ℚ) :
    ((∃ e, mkHybridScorer w1 w2 w3 = .error e) ↔ |w1 + w2 + w3 - 1| > 1/1000)
    ∧ (|w1 + w2 + w3 - 1| ≤ 1/1000 → mkHybridScorer w1 w2 w3 = .ok ⟨w1, w2, w3⟩) := by
  constructor
  · constructor
    · rintro ⟨e, he⟩
      by_contra hnot
      push_neg at hnot
      unfold mkHybridScorer at he
      rw [if_neg (not_lt.mpr hnot)] at he
      exact Except.noConfusion he
    · intro h
      refine ⟨"Weights must sum to 1.0", ?_⟩
      unfold mkHybridScorer
      rw [if_pos h]
  · intro h
    unfold mkHybridScorer
    rw [if_neg (not_lt.mpr h)]

/-- Witness for hybrid_scorer_weight_validation at the default weights
0.4, 0.4, 0.2: the sum is exactly 1, so construction succeeds and stores the
supplied weights. -/
theorem hybrid_scorer_weight_validation_witness :
    mkHybridScorer (4/10) (4/10) (2/10) = .ok ⟨4/10, 4/10, 2/10⟩ :=
  (hybrid_scorer_weight_validation (4/10) (4/10) (2/10)).2 (by norm_num)

/-- C1 (counterexample evaluation): with the default weights, for a candidate
with no execution signal at hop distance 2 the source's score_query returns
hybrid 0.4·0.8 + 0.4·(1/3) + 0.2·0 = 34/75 ≈ 0.4533 — the execution weight is
applied to the zero value — and not the claimed two-term fallback
0.5·0.8 + 0.5·(1/3) = 17/30 ≈ 0.5667. -/
theorem score_query_no_fallback :
    (defaultScorer.score_query [] [] 2 false).hybrid_score = 34/75
    ∧ ((34:ℚ)/75 ≠ (1/2) * (8/10) + (1/2) * (1/(1+2)))
    ∧ (defaultScorer.score_query [] [] 2 false).hybrid_score
        ≠ (1/2) * (8/10) + (1/2) * (1/(1+2)) := by
  refine ⟨?_, by norm_num, ?_⟩
  · unfold defaultScorer HybridScorer.score_query HybridScorer.score
    norm_num
  · unfold defaultScorer HybridScorer.score_query HybridScorer.score
    norm_num

/-! Graph model: edges (models/edges/base_edge.py) and plain node records
(models/nodes/file_node.py, models/nodes/function_node.py).  The records
here are the raw field sets; pydantic construction-time validation is
modelled separately where a claim depends on it. -/

/-- Embeds the EdgeType enum (models/edges/base_edge.py lines 9-17). -/
inductive EdgeType where
  | CONTAINS | IMPORTS | CALLS | INHERITS | READS_WRITES | TESTS
  deriving DecidableEq

/-- Embeds the BaseEdge pydantic model (models/edges/base_edge.py lines
28-47): its declared fields are exactly type, confidence and metadata; the
source_id / target_id of a relationship live inside the metadata dict. -/
structure BaseEdge where
  type : EdgeType
  confidence : ℚ
  metadata : List (String × String)
  deriving DecidableEq

/-- Embeds the ParseStatus enum (models/nodes/file_node.py lines 10-15);
part stands for the PARTIAL member. -/
inductive ParseStatus where
  | success | part | failed
  deriving DecidableEq

/-- Raw field set of the FileNode pydantic model (models/nodes/file_node.py
lines 33-45); last_indexed and embedding are omitted as no claim mentions
them. -/
structure FileNode where
  id : String
  path : String
  language : String
  content_hash : String
  size_bytes : Nat
  parse_status : ParseStatus
  error_count : Nat
  deriving DecidableEq

/-- Embeds the Parameter pydantic model (models/nodes/function_node.py
lines 8-14). -/
structure Parameter where
  name : String
  type_hint : Option String
  default_value : Option String
  is_optional : Bool
  deriving DecidableEq

/-- Embeds the FunctionNode pydantic model (models/nodes/function_node.py
lines 36-48); is_exported and cyclomatic_complexity keep their defaults in
every construction the claims touch and are omitted. -/
structure FunctionNode where
  id : String
  name : String
  qualified_name : String
  line_start : Nat
  line_end : Nat
  docstring : Option String
  signature : String
  return_type : Option String
  parameters : List Parameter
  is_async : Bool
  decorators : List String
  deriving DecidableEq

/-! Graph distance calculator, embedding
src/code_graph/retrieval/graph_distance.py. -/

/-- Models the Python attribute access edge.source_id performed by
GraphDistanceCalculator.calculate_distance (retrieval/graph_distance.py
lines 33-35).  BaseEdge declares only the fields type, confidence and
metadata (models/edges/base_edge.py lines 37-39) and pydantic models raise
AttributeError on access to an undeclared attribute, so this access always
raises. -/
def BaseEdge.source_id_attr (_ : BaseEdge) : Except String String :=
  .error "AttributeError: 'BaseEdge' object has no attribute 'source_id'"

/-- Models the Python attribute access edge.target_id; see
BaseEdge.source_id_attr. -/
def BaseEdge.target_id_attr (_ : BaseEdge) : Except String String :=
  .error "AttributeError: 'BaseEdge' object has no attribute 'target_id'"

/-- Python dict.get(k, default) over an insertion-ordered association list. -/
def dictGet {α : Type} (k : String) : List (String × α) → Option α
  | [] => none
  | (k', v) :: rest => if k' = k then some v else dictGet k rest

/-- Python d[k] = v over an insertion-ordered association list: replace in
place when the key exists, append otherwise. -/
def dictInsert {α : Type} (k : String) (v : α) : List (String × α) → List (String × α)
  | [] => [(k, v)]
  | (k', v') :: rest => if k' = k then (k, v) :: rest else (k', v') :: dictInsert k v rest

/-- The adjacency-building loop of calculate_distance
(retrieval/graph_distance.py lines 31-35): for each edge it reads
edge.source_id and edge.target_id and appends the target to the source's
adjacency list.  The attribute reads raise, so the loop raises on the first
edge; an empty edge list yields the empty adjacency map. -/
def buildAdjacency : List BaseEdge → List (String × List String) →
    Except String (List (String × List String))
  | [], adjacency => .ok adjacency
  | edge :: rest, adjacency => do
    let s ← edge.source_id_attr
    let t ← edge.target_id_attr
    buildAdjacency rest (dictInsert s ((dictGet s adjacency).getD [] ++ [t]) adjacency)

/-- The inner neighbor loop of the BFS (retrieval/graph_distance.py lines
47-50): visited and queue grow as the neighbor list is traversed. -/
def enqueueNeighbors (d : Nat) : List String → List String → List (String × Nat) →
    List String × List (String × Nat)
  | [], visited, queue => (visited, queue)
  | n :: ns, visited, queue =>
    if visited.contains n then enqueueNeighbors d ns visited queue
    else enqueueNeighbors d ns (visited ++ [n]) (queue ++ [(n, d)])

/-- The BFS while-loop of calculate_distance (retrieval/graph_distance.py
lines 37-52).  fuel bounds the number of loop iterations; every iteration
dequeues one entry and entries are only enqueued when a node is first marked
visited, so at most 1 + (number of edges) entries are ever enqueued and
fuel = edges.length + 2 is sufficient for the loop to terminate through one
of its own exits. -/
def bfsLoop (adjacency : List (String × List String)) (target_id : String) :
    Nat → List (String × Nat) → List String → WithTop Nat
  | 0, _, _ => ⊤
  | _ + 1, [], _ => ⊤
  | fuel + 1, (node_id, distance) :: queue, visited =>
    if node_id = target_id then (distance : WithTop Nat)
    else
      let (visited', queue') :=
        enqueueNeighbors (distance + 1) ((dictGet node_id adjacency).getD []) visited queue
      bfsLoop adjacency target_id fuel queue' visited'

/-- Embeds GraphDistanceCalculator.calculate_distance
(retrieval/graph_distance.py lines 11-52).  Distances are naturals with ⊤ as
the float('inf') sentinel; a raised Python exception is the error case. -/
def calculate_distance (source_id target_id : String) (edges : List BaseEdge) :
    Except String (WithTop Nat) :=
  if source_id = target_id then .ok 0
  else do
    let adjacency ← buildAdjacency edges []
    .ok (bfsLoop adjacency target_id (edges.length + 2) [(source_id, 0)] [source_id])

/-- C2 (counterexample evaluation): distance to self is 0 and an empty edge
set gives the infinity sentinel, but on the claim's own representation — an
edge carrying source_id and target_id in its metadata map — calculate_distance
raises AttributeError instead of returning 1 for a direct edge, because the
code reads edge.source_id while BaseEdge only stores the ids in metadata. -/
theorem calculate_distance_attribute_error :
    calculate_distance "node_a" "node_a" [] = .ok 0
    ∧ calculate_distance "node_a" "node_z" [] = .ok ⊤
    ∧ calculate_distance "node_a" "node_b"
        [⟨EdgeType.IMPORTS, 1, [("source_id", "node_a"), ("target_id", "node_b")]⟩]
        = .error "AttributeError: 'BaseEdge' object has no attribute 'source_id'"
    ∧ (Except.error "AttributeError: 'BaseEdge' object has no attribute 'source_id'"
        ≠ (Except.ok 1 : Except String (WithTop Nat))) :=
  ⟨rfl, rfl, rfl, fun h => Except.noConfusion h⟩

/-! Graph store, embedding src/code_graph/storage/graph_store.py.  The two
Python dicts are insertion-ordered association lists, matching dict
iteration order. -/

/-- Embeds the GraphStore state (storage/graph_store.py lines 16-20). -/
structure GraphStore where
  files : List (String × FileNode)
  functions : List (String × FunctionNode)
  edges : List BaseEdge

/-- Embeds GraphStore.__init__ (storage/graph_store.py lines 16-20). -/
def GraphStore.empty : GraphStore := ⟨[], [], []⟩

/-- Embeds GraphStore.add_file (storage/graph_store.py lines 22-24):
self.files[file_node.id] = file_node. -/
def GraphStore.add_file (self : GraphStore) (file_node : FileNode) : GraphStore :=
  { self with files := dictInsert file_node.id file_node self.files }

/-- Embeds GraphStore.add_function (storage/graph_store.py lines 26-28). -/
def GraphStore.add_function (self : GraphStore) (function_node : FunctionNode) : GraphStore :=
  { self with functions := dictInsert function_node.id function_node self.functions }

/-- Embeds GraphStore.add_edge (storage/graph_store.py lines 30-32):
self.edges.append(edge). -/
def GraphStore.add_edge (self : GraphStore) (edge : BaseEdge) : GraphStore :=
  { self with edges := self.edges ++ [edge] }

/-- Embeds GraphStore.get_file (storage/graph_store.py lines 34-36). -/
def GraphStore.get_file (self : GraphStore) (file_id : String) : Option FileNode :=
  dictGet file_id self.files

/-- Embeds GraphStore.clear (storage/graph_store.py lines 42-46). -/
def GraphStore.clear (_ : GraphStore) : GraphStore := ⟨[], [], []⟩

theorem dictGet_dictInsert {α : Type} (k : String) (v : α) (l : List (String × α)) :
    dictGet k (dictInsert k v l) = some v := by
  induction l with
  | nil => simp [dictInsert, dictGet]
  | cons hd tl ih =>
    obtain ⟨k', v'⟩ := hd
    by_cases h : k' = k
    · simp [dictInsert, dictGet, h]
    · simp [dictInsert, dictGet, h, ih]

theorem length_dictInsert_of_mem {α : Type} (k : String) (v : α) (l : List (String × α))
    (h : (dictGet k l).isSome) : (dictInsert k v l).length = l.length := by
  induction l with
  | nil => simp [dictGet] at h
  | cons hd tl ih =>
    obtain ⟨k', v'⟩ := hd
    by_cases hk : k' = k
    · simp [dictInsert, hk]
    · simp only [dictGet, if_neg hk] at h
      simp [dictInsert, hk, ih h]

/-- C9: add_edge appends exactly one edge at the end (earlier edges and the
file/function maps unchanged, even for a duplicate edge); add_file maps the
node's id to the node, keeps the file count when the id already exists, and
leaves edges and functions unchanged; clear empties all three collections. -/
theorem graph_store_frame_effects (s : GraphStore) (e : BaseEdge) (n : FileNode) :
    (s.add_edge e).edges = s.edges ++ [e]
    ∧ (s.add_edge e).edges.length = s.edges.length + 1
    ∧ (s.add_edge e).files = s.files
    ∧ (s.add_edge e).functions = s.functions
    ∧ (s.add_file n).get_file n.id = some n
    ∧ ((dictGet n.id s.files).isSome → (s.add_file n).files.length = s.files.length)
    ∧ (s.add_file n).edges = s.edges
    ∧ (s.add_file n).functions = s.functions
    ∧ s.clear.files = [] ∧ s.clear.functions = [] ∧ s.clear.edges = [] := by
  refine ⟨rfl, by simp [GraphStore.add_edge], rfl, rfl, ?_, ?_, rfl, rfl, rfl, rfl, rfl⟩
  · exact dictGet_dictInsert n.id n s.files
  · exact length_dictInsert_of_mem n.id n s.files

/-- A concrete file node used by witnesses. -/
def witnessFileNode : FileNode :=
  ⟨"f1", "src/a.py", "python", "h", 10, ParseStatus.success, 0⟩

/-- A concrete store already containing witnessFileNode's id. -/
def witnessStore : GraphStore :=
  ⟨[("f1", witnessFileNode)], [], [⟨EdgeType.IMPORTS, 1, []⟩]⟩

/-- Witness for graph_store_frame_effects: re-adding a file whose id is
already present keeps the file count at 1. -/
theorem graph_store_frame_effects_witness :
    (witnessStore.add_file witnessFileNode).files.length = witnessStore.files.length :=
  (graph_store_frame_effects witnessStore ⟨EdgeType.IMPORTS, 1, []⟩
    witnessFileNode).2.2.2.2.2.1 (by decide)

/-! Pydantic construction of FileNode, embedding the field validators of
models/nodes/file_node.py.  Pydantic v2 validates fields in declaration
order and a field_validator's info.data contains exactly the
already-validated earlier fields. -/

/-- Python str.lower(), written over the character list so that it reduces
in the kernel. -/
def pyLower (s : String) : String := ⟨s.toList.map Char.toLower⟩

/-- Embeds FileNode.validate_content_hash (models/nodes/file_node.py lines
47-55). -/
def validate_content_hash (v : String) : Except String String :=
  if v.toList.length ≠ 64 then
    .error "content_hash must be 64 hex characters (SHA-256)"
  else if ¬ ((pyLower v).toList.all
      (fun c => "0123456789abcdef".toList.contains c)) then
    .error "content_hash must contain only hex characters"
  else
    .ok v

/-- Embeds FileNode.validate_language (models/nodes/file_node.py lines
57-64). -/
def validate_language (v : String) : Except String String :=
  let supported := ["python", "typescript", "javascript", "go", "java"]
  if ¬ supported.contains (pyLower v) then
    .error ("Unsupported language: " ++ v)
  else
    .ok (pyLower v)

/-- Embeds FileNode.validate_parse_status_consistency
(models/nodes/file_node.py lines 66-72).  data_error_count models
info.data.get("error_count", 0): none when "error_count" is not yet in
info.data, in which case the Python default 0 is used. -/
def validate_parse_status_consistency (v : ParseStatus) (data_error_count : Option Nat) :
    Except String ParseStatus :=
  if v = ParseStatus.success ∧ data_error_count.getD 0 > 0 then
    .error "parse_status cannot be SUCCESS if error_count > 0"
  else
    .ok v

/-- Embeds pydantic construction FileNode(...) with the validators of
models/nodes/file_node.py run in field declaration order (id, path,
language, content_hash, size_bytes, parse_status, error_count, ...).
When the parse_status validator runs, error_count — declared on the line
after parse_status — has not been validated yet, so info.data has no
"error_count" entry and the validator reads its default 0; that absence is
passed here as none. -/
def mk_FileNode (id path language content_hash : String) (size_bytes : Nat)
    (parse_status : ParseStatus) (error_count : Nat) : Except String FileNode := do
  let lang ← validate_language language
  let ch ← validate_content_hash content_hash
  let ps ← validate_parse_status_consistency parse_status none
  .ok ⟨id, path, lang, ch, size_bytes, ps, error_count⟩

/-- A 64-character hex digest used as a concrete content hash. -/
def hash64 : String := ⟨List.replicate 64 'a'⟩

/-- C3 (counterexample evaluation): constructing a FileNode with parse_status
SUCCESS and error_count = 5 > 0 is accepted, because the parse_status
validator runs before error_count is validated and so always compares the
default 0; the SUCCESS ⇒ error_count = 0 invariant is not enforced at
validation time. -/
theorem file_node_success_with_errors_accepted :
    mk_FileNode "f1a2" "src/a.py" "python" hash64 10 ParseStatus.success 5
      = .ok ⟨"f1a2", "src/a.py", "python", hash64, 10, ParseStatus.success, 5⟩
    ∧ (FileNode.mk "f1a2" "src/a.py" "python" hash64 10 ParseStatus.success 5).parse_status
        = ParseStatus.success
    ∧ 0 < (FileNode.mk "f1a2" "src/a.py" "python" hash64 10 ParseStatus.success 5).error_count :=
  ⟨rfl, rfl, by decide⟩

/-! Indexer, embedding src/code_graph/indexer/main.py.  The repository walk
(rglob in traversal order) together with the per-file work inside the try
block — GraphBuilder.build_from_file (indexer/graph_builder.py lines 35-64)
followed by store.add_file — is modelled by a list of (path, outcome) pairs,
where outcome is ok with the BuildResult or error with str(e) for a raised
exception. -/

/-- Embeds the BuildResult dataclass (indexer/graph_builder.py lines 14-21);
the classes list is omitted as index_repository does not read it. -/
structure BuildResult where
  file_node : FileNode
  functions : List FunctionNode
  success : Bool

/-- Embeds the IndexResult dataclass (indexer/main.py lines 9-15). -/
structure IndexResult where
  success : Bool
  files_indexed : Nat
  functions_found : Nat
  errors : List String
  deriving DecidableEq

/-- The for-loop of Indexer.index_repository (indexer/main.py lines 41-48):
on success the file is added to the store and the counters advance, on an
exception the message "<path>: <message>" is appended to the error list and
the loop continues with the next file. -/
def indexLoop : List (String × Except String BuildResult) →
    Nat → Nat → List String → GraphStore → Nat × Nat × List String × GraphStore
  | [], files_indexed, functions_found, errors, store =>
    (files_indexed, functions_found, errors, store)
  | (path, outcome) :: rest, files_indexed, functions_found, errors, store =>
    match outcome with
    | .ok result =>
      indexLoop rest (files_indexed + 1) (functions_found + result.functions.length)
        errors (store.add_file result.file_node)
    | .error e =>
      indexLoop rest files_indexed functions_found (errors ++ [path ++ ": " ++ e]) store

/-- Embeds Indexer.index_repository (indexer/main.py lines 26-55): runs the
per-file loop from empty accumulators and always returns success = True. -/
def index_repository (files : List (String × Except String BuildResult)) :
    IndexResult × GraphStore :=
  let r := indexLoop files 0 0 [] GraphStore.empty
  (⟨true, r.1, r.2.1, r.2.2.1⟩, r.2.2.2)

/-- The files counted by the loop: those whose outcome is ok. -/
def okCount (files : List (String × Except String BuildResult)) : Nat :=
  (files.filter (fun pr => pr.2.isOk)).length

/-- The error strings accumulated by the loop. -/
def errStrings (files : List (String × Except String BuildResult)) : List String :=
  files.filterMap (fun pr =>
    match pr.2 with
    | .error e => some (pr.1 ++ ": " ++ e)
    | .ok _ => none)

theorem filterMap_const_none {α β : Type} (l : List α) :
    l.filterMap (fun _ => (none : Option β)) = [] := by
  induction l <;> simp [*]

theorem indexLoop_spec (files : List (String × Except String BuildResult))
    (fi ff : Nat) (errs : List String) (store : GraphStore) :
    (indexLoop files fi ff errs store).1 = fi + okCount files
    ∧ (indexLoop files fi ff errs store).2.2.1 = errs ++ errStrings files := by
  induction files generalizing fi ff errs store with
  | nil => simp [indexLoop, okCount, errStrings]
  | cons hd tl ih =>
    obtain ⟨path, outcome⟩ := hd
    match outcome with
    | .ok result =>
      simp only [indexLoop]
      refine ⟨?_, ?_⟩
      · rw [(ih _ _ _ _).1]
        simp [okCount, Except.isOk, Except.toBool]
        omega
      · rw [(ih _ _ _ _).2]
        simp [errStrings]
    | .error e =>
      simp only [indexLoop]
      refine ⟨?_, ?_⟩
      · rw [(ih _ _ _ _).1]
        simp [okCount, Except.isOk, Except.toBool]
      · rw [(ih _ _ _ _).2]
        simp [errStrings]

/-- C5: indexing a repository whose walk yields the parseable files pre and
post around one file whose processing raises reports files_indexed =
pre.length + post.length, exactly the one error "<path>: <message>", and
success = true: a single bad file never aborts the run. -/
theorem index_repository_best_effort
    (pre post : List (String × BuildResult)) (path msg : String) :
    ((index_repository
        (pre.map (fun x => (x.1, Except.ok x.2))
          ++ (path, Except.error msg)
            :: post.map (fun x => (x.1, Except.ok x.2)))).1).files_indexed
      = pre.length + post.length
    ∧ ((index_repository
        (pre.map (fun x => (x.1, Except.ok x.2))
          ++ (path, Except.error msg)
            :: post.map (fun x => (x.1, Except.ok x.2)))).1).errors
      = [path ++ ": " ++ msg]
    ∧ ((index_repository
        (pre.map (fun x => (x.1, Except.ok x.2))
          ++ (path, Except.error msg)
            :: post.map (fun x => (x.1, Except.ok x.2)))).1).success = true := by
  have h := indexLoop_spec
    (pre.map (fun x => (x.1, Except.ok x.2))
      ++ (path, Except.error msg) :: post.map (fun x => (x.1, Except.ok x.2)))
    0 0 [] GraphStore.empty
  refine ⟨?_, ?_, rfl⟩
  · show (indexLoop _ 0 0 [] GraphStore.empty).1 = _
    rw [h.1]
    simp [okCount, List.filter_append, List.filter_map, Function.comp_def,
      Except.isOk, Except.toBool]
  · show (indexLoop _ 0 0 [] GraphStore.empty).2.2.1 = _
    rw [h.2]
    simp [errStrings, List.filterMap_append, List.filterMap_map, Function.comp_def,
      filterMap_const_none]

/-! Context pack builder, embedding src/code_graph/retrieval/context_pack.py
and the result records of src/code_graph/models/context_pack.py. -/

/-- needle is a leading block of haystack (helper for the Python substring
test). -/
def leadsList : List Char → List Char → Bool
  | [], _ => true
  | _ :: _, [] => false
  | a :: as, b :: bs => a = b && leadsList as bs

/-- Python's substring operator needle in haystack. -/
def containsSub (needle : List Char) : List Char → Bool
  | [] => leadsList needle []
  | b :: bs => leadsList needle (b :: bs) || containsSub needle bs

/-- Python term in s on strings. -/
def pyIn (needle haystack : String) : Bool :=
  containsSub needle.toList haystack.toList

/-- Embeds the ScoredFile dataclass (retrieval/context_pack.py lines 8-13). -/
structure ScoredFile where
  path : String
  score : ℚ
  rationale : String

/-- Embeds the FileReference pydantic model (models/context_pack.py lines
39-45); related_nodes is always [] in the builder and is omitted. -/
structure FileReference where
  file_path : String
  relevance_score : ℚ
  rationale : String
  deriving DecidableEq

/-- Embeds the ContextPack pydantic model (models/context_pack.py lines
48-63); retrieval_timestamp (datetime.now()) is omitted as no claim
mentions it. -/
structure ContextPack where
  query : String
  files : List FileReference
  total_confidence : ℚ
  max_hops : Nat

/-- The per-file keyword scoring of ContextPackBuilder.build
(retrieval/context_pack.py lines 42-51): default 0.5, raised to 0.8 or 0.9
when a term occurring in the query also occurs in the file path. -/
def fileScore (query path : String) : ℚ :=
  let query_lower := pyLower query
  let path_lower := pyLower path
  if ["auth", "user", "login", "register"].any
      (fun term => pyIn term query_lower && pyIn term path_lower) then mkRat 8 10
  else if ["valid", "email"].any
      (fun term => pyIn term query_lower && pyIn term path_lower) then mkRat 9 10
  else mkRat 1 2

/-- The descending-score ordering used by sorted(..., key=score,
reverse=True). -/
def scoreRel (a b : ScoredFile) : Prop := b.score ≤ a.score

instance : DecidableRel scoreRel := fun a b => inferInstanceAs (Decidable (b.score ≤ a.score))

instance : IsTotal ScoredFile scoreRel := ⟨fun a b => le_total b.score a.score⟩

instance : IsTrans ScoredFile scoreRel := ⟨fun _ _ _ h1 h2 => le_trans h2 h1⟩

/-- Embeds ContextPackBuilder.build (retrieval/context_pack.py lines 27-82).
self.graph.files.items() is the insertion-ordered association list; Python's
sorted(...) is a stable sort and every stable sort agrees with insertion
sort under the same total preorder, so List.insertionSort scoreRel produces
exactly the sorted(scored_files, key=score, reverse=True) ordering. -/
def ContextPackBuilder.build (graph : GraphStore) (query : String)
    (top_n : Nat) (max_hops : Nat) : ContextPack :=
  let scored_files : List ScoredFile := graph.files.map (fun pr =>
    ⟨pr.2.path, fileScore query pr.2.path, "File matches query terms: " ++ pr.2.path⟩)
  let top_files := (List.insertionSort scoreRel scored_files).take top_n
  let file_refs : List FileReference := top_files.map (fun f =>
    ⟨f.path, f.score, f.rationale⟩)
  let total_confidence : ℚ :=
    if top_files.length = 0 then 0
    else (top_files.map (fun f => f.score)).sum / (top_files.length : ℚ)
  ⟨query, file_refs, total_confidence, max_hops⟩

/-- C4 (amended): the context pack's file references are sorted in
descending order of relevance score and at most top_n references are
included; ties keep the store's insertion order (the sort is stable), not
ascending file-path order. -/
theorem context_pack_sorted_and_bounded (graph : GraphStore) (query : String)
    (top_n max_hops : Nat) :
    List.Pairwise (fun a b : FileReference => b.relevance_score ≤ a.relevance_score)
      (ContextPackBuilder.build graph query top_n max_hops).files
    ∧ (ContextPackBuilder.build graph query top_n max_hops).files.length ≤ top_n := by
  constructor
  · have hs : List.Pairwise scoreRel
        (List.insertionSort scoreRel (graph.files.map (fun pr =>
          (⟨pr.2.path, fileScore query pr.2.path,
            "File matches query terms: " ++ pr.2.path⟩ : ScoredFile)))) :=
      List.sorted_insertionSort scoreRel _
    have ht := hs.sublist (List.take_sublist top_n _)
    exact ht.map _ (fun a b h => h)
  · simp only [ContextPackBuilder.build, List.length_map]
    exact List.length_take_le top_n _

/-- Concrete files for the C4 counterexample: equal scores, paths in
descending order of insertion. -/
def cxFileB : FileNode := ⟨"id1", "b.py", "python", "h", 1, ParseStatus.success, 0⟩

/-- Second concrete file for the C4 counterexample. -/
def cxFileA : FileNode := ⟨"id2", "a.py", "python", "h", 1, ParseStatus.success, 0⟩

/-- A store whose insertion order (b.py before a.py) disagrees with
ascending path order. -/
def cxStore : GraphStore := ⟨[("id1", cxFileB), ("id2", cxFileA)], [], []⟩

/-- Code-point lexicographic strict order on character lists; this is the
comparison Python's < performs on the ASCII file paths of the claim. -/
def lexLt : List Char → List Char → Bool
  | [], [] => false
  | [], _ :: _ => true
  | _ :: _, [] => false
  | a :: as, b :: bs => if a = b then lexLt as bs else decide (a < b)

/-- Ascending-path comparison used to state the claimed tie-break. -/
def pathLtB (a b : String) : Bool := lexLt a.toList b.toList

/-- C4 (counterexample): for a query matching no keyword both files score
0.5, and the builder returns them in store insertion order b.py, a.py — not
tie-broken by ascending file path, so the output depends on insertion
order. -/
theorem context_pack_tie_break_counterexample :
    ((ContextPackBuilder.build cxStore "refactor" 10 2).files.map
        (fun f => f.file_path) = ["b.py", "a.py"])
    ∧ ((ContextPackBuilder.build cxStore "refactor" 10 2).files.map
        (fun f => f.relevance_score) = [1/2, 1/2])
    ∧ ¬ List.Pairwise (fun a b : FileReference =>
          b.relevance_score < a.relevance_score
          ∨ (b.relevance_score = a.relevance_score
              ∧ (pathLtB a.file_path b.file_path = true ∨ a.file_path = b.file_path)))
        (ContextPackBuilder.build cxStore "refactor" 10 2).files := by
  have hfiles : (ContextPackBuilder.build cxStore "refactor" 10 2).files
      = [⟨"b.py", mkRat 1 2, "File matches query terms: b.py"⟩,
         ⟨"a.py", mkRat 1 2, "File matches query terms: a.py"⟩] := rfl
  have hhalf : mkRat 1 2 = (1:ℚ)/2 := by norm_num [mkRat, Rat.normalize]
  refine ⟨by rw [hfiles]; rfl, by rw [hfiles]; simp [hhalf], ?_⟩
  intro h
  rw [hfiles] at h
  have hrel := List.rel_of_pairwise_cons h (List.mem_singleton.mpr rfl)
  rcases hrel with hlt | ⟨_, hpath⟩
  · exact absurd hlt (lt_irrefl _)
  · rcases hpath with hp | hp
    · exact absurd hp (by decide)
    · exact absurd hp (by decide)

/-! Go structural extraction, embedding src/code_graph/indexer/parsers/
go_parser.py.  A tree-sitter CST node carries node.type, node.text,
node.is_missing, its start/end rows and its children; the tree / forest
split keeps all recursion structural so that concrete trees evaluate in the
kernel. -/

mutual

/-- Model of a tree-sitter CST node as seen by the Go extractor. -/
inductive TSNode : Type where
  | mk (ty : String) (text : String) (is_missing : Bool)
      (startRow endRow : Nat) (children : TSForest)

/-- A list of sibling CST nodes. -/
inductive TSForest : Type where
  | nil
  | cons (hd : TSNode) (tl : TSForest)

end

/-- The node.type field. -/
def TSNode.ty : TSNode → String
  | .mk t _ _ _ _ _ => t

/-- The node text; embeds GoParser._get_node_text (go_parser.py lines
541-543). -/
def TSNode.text : TSNode → String
  | .mk _ x _ _ _ _ => x

/-- The node.is_missing flag. -/
def TSNode.missing : TSNode → Bool
  | .mk _ _ m _ _ _ => m

/-- node.start_point[0]. -/
def TSNode.startRow : TSNode → Nat
  | .mk _ _ _ s _ _ => s

/-- node.end_point[0]. -/
def TSNode.endRow : TSNode → Nat
  | .mk _ _ _ _ e _ => e

def TSForest.toList : TSForest → List TSNode
  | .nil => []
  | .cons c cs => c :: cs.toList

/-- The node.children list. -/
def TSNode.children : TSNode → List TSNode
  | .mk _ _ _ _ _ cs => cs.toList

def forestOf : List TSNode → TSForest
  | [] => .nil
  | x :: xs => .cons x (forestOf xs)

mutual

/-- Embeds GoParser._walk_tree (go_parser.py lines 554-559): the node
followed by the recursive walk of each child. -/
def walk_tree : TSNode → List TSNode
  | .mk ty text m s e children => .mk ty text m s e children :: walk_forest children

def walk_forest : TSForest → List TSNode
  | .nil => []
  | .cons c cs => walk_tree c ++ walk_forest cs

end

/-- Embeds GoParser._extract_parameter_info (go_parser.py lines 380-401):
collects every identifier child as a name, keeps the last type-shaped child
as the shared type, and expands grouped parameters (a, b int) to one
Parameter per name; an unnamed typed parameter gets the placeholder name _.
The Python None return (no names and no type) is the empty list here — the
caller appends nothing in that case. -/
def extract_parameter_info (param_node : TSNode) : List Parameter :=
  let param_names := param_node.children.filterMap (fun child =>
    if child.ty = "identifier" then some child.text else none)
  let param_type := param_node.children.foldl (fun acc child =>
    if ["type_identifier", "pointer_type", "slice_type", "array_type",
        "qualified_type"].contains child.ty then some child.text else acc) none
  match param_names, param_type with
  | n :: ns, some t => (n :: ns).map (fun name => ⟨name, some t, none, false⟩)
  | [], some t => [⟨"_", some t, none, false⟩]
  | _, none => []

/-- Embeds GoParser._extract_variadic_parameter (go_parser.py lines
403-417). -/
def extract_variadic_parameter (param_node : TSNode) : Option Parameter :=
  let param_name := param_node.children.foldl (fun acc child =>
    if child.ty = "identifier" then some child.text else acc) none
  let param_type := param_node.children.foldl (fun acc child =>
    if ["type_identifier", "pointer_type", "slice_type"].contains child.ty then
      some ("..." ++ child.text) else acc) none
  match param_name, param_type with
  | some n, some t => some ⟨n, some t, none, false⟩
  | _, _ => none

/-- Embeds GoParser._extract_parameters (go_parser.py lines 360-378). -/
def extract_parameters (params_node : TSNode) : List Parameter :=
  params_node.children.foldl (fun acc child =>
    if child.ty = "parameter_declaration" then
      acc ++ extract_parameter_info child
    else if child.ty = "variadic_parameter_declaration" then
      match extract_variadic_parameter child with
      | some p => acc ++ [p]
      | none => acc
    else acc) []

/-- Embeds GoParser._extract_return_type (go_parser.py lines 419-438):
collects the type of every parameter_declaration child and joins two or
more component types into one parenthesised, comma-separated string. -/
def extract_return_type (param_list_node : TSNode) : Option String :=
  let types := param_list_node.children.foldl (fun acc child =>
    if child.ty = "parameter_declaration" then
      acc ++ child.children.filterMap (fun pc =>
        if ["type_identifier", "pointer_type", "slice_type",
            "qualified_type"].contains pc.ty then some pc.text else none)
    else acc) []
  match types with
  | [] => none
  | [t] => some t
  | ts => some ("(" ++ String.intercalate ", " ts ++ ")")

/-- Stands in for hashlib.md5(qualified_name).hexdigest()[:16]
(go_parser.py lines 275 and 347); no claim depends on the digest value,
only on the remaining FunctionNode fields. -/
def md5_hex16 (s : String) : String := "md5_" ++ s

/-- The return-type loop of _extract_function_info (go_parser.py lines
252-261): a direct type-shaped child ends the loop with its text; each
parameter_list child overwrites the return type with _extract_return_type
of that child, provided function parameters were already extracted. -/
def function_return_type_loop (parameters : List Parameter) :
    List TSNode → Option String → Option String
  | [], acc => acc
  | child :: rest, acc =>
    if ["type_identifier", "pointer_type", "slice_type", "array_type",
        "qualified_type"].contains child.ty then
      some child.text
    else if child.ty = "parameter_list" then
      if parameters.isEmpty then function_return_type_loop parameters rest acc
      else function_return_type_loop parameters rest (extract_return_type child)
    else function_return_type_loop parameters rest acc

/-- Embeds GoParser._extract_function_info (go_parser.py lines 231-286). -/
def extract_function_info (node : TSNode) (parent_path : String) : Option FunctionNode :=
  let func_name? := node.children.findSome? (fun child =>
    if child.ty = "identifier" then some child.text else none)
  match func_name? with
  | none => none
  | some func_name =>
    let parameters :=
      match node.children.findSome? (fun child =>
        if child.ty = "parameter_list" then some child else none) with
      | some pl => extract_parameters pl
      | none => []
    let return_type := function_return_type_loop parameters node.children none
    let qualified_name :=
      if parent_path ≠ "" then parent_path ++ "." ++ func_name else func_name
    let param_str := String.intercalate ", " (parameters.map (fun p => p.name))
    let signature := "func " ++ func_name ++ "(" ++ param_str ++ ")"
    some ⟨md5_hex16 qualified_name, func_name, qualified_name,
      node.startRow + 1, node.endRow + 1, none, signature, return_type,
      parameters, false, []⟩

/-- Python s.lstrip("*"). -/
def lstripStar (s : String) : String := ⟨s.toList.dropWhile (fun c => c = '*')⟩

/-- The return-type loop of _extract_method_info (go_parser.py lines
318-325): a direct type-shaped child ends the loop; a parameter_list child
overwrites the return type with _extract_return_type of the third
parameter_list when one exists. -/
def method_return_type_loop (param_lists : List TSNode) :
    List TSNode → Option String → Option String
  | [], acc => acc
  | child :: rest, acc =>
    if ["type_identifier", "pointer_type", "slice_type", "array_type",
        "qualified_type"].contains child.ty then
      some child.text
    else if child.ty = "parameter_list" then
      match param_lists with
      | _ :: _ :: pl3 :: _ =>
        method_return_type_loop param_lists rest (extract_return_type pl3)
      | _ => method_return_type_loop param_lists rest acc
    else method_return_type_loop param_lists rest acc

/-- Embeds GoParser._extract_method_info (go_parser.py lines 288-358). -/
def extract_method_info (node : TSNode) (parent_path : String) : Option FunctionNode :=
  let receiver_type :=
    match node.children.findSome? (fun child =>
      if child.ty = "parameter_list" then some child else none) with
    | some pl =>
      match extract_parameters pl with
      | p :: _ => p.type_hint
      | [] => none
    | none => none
  let func_name? := node.children.findSome? (fun child =>
    if child.ty = "field_identifier" then some child.text else none)
  match func_name? with
  | none => none
  | some func_name =>
    let param_lists := node.children.filter (fun child => child.ty = "parameter_list")
    let parameters :=
      match param_lists with
      | _ :: pl2 :: _ => extract_parameters pl2
      | _ => []
    let return_type := method_return_type_loop param_lists node.children none
    let qualified_name :=
      match receiver_type with
      | some rt => lstripStar rt ++ "." ++ func_name
      | none => if parent_path ≠ "" then parent_path ++ "." ++ func_name else func_name
    let param_str := String.intercalate ", " (parameters.map (fun p => p.name))
    let signature :=
      match receiver_type with
      | some rt => "func (" ++ rt ++ ") " ++ func_name ++ "(" ++ param_str ++ ")"
      | none => "func " ++ func_name ++ "(" ++ param_str ++ ")"
    some ⟨md5_hex16 qualified_name, func_name, qualified_name,
      node.startRow + 1, node.endRow + 1, none, signature, return_type,
      parameters, false, []⟩

/-- Embeds GoParser.extract_functions (go_parser.py lines 163-185): walks
the whole tree and extracts every function_declaration and
method_declaration. -/
def extract_functions (tree : TSNode) (parent_path : String) : List FunctionNode :=
  (walk_tree tree).foldl (fun acc node =>
    if node.ty = "function_declaration" then
      match extract_function_info node parent_path with
      | some f => acc ++ [f]
      | none => acc
    else if node.ty = "method_declaration" then
      match extract_method_info node parent_path with
      | some f => acc ++ [f]
      | none => acc
    else acc) []

/-- A leaf CST node. -/
def tsLeaf (ty text : String) (row : Nat) : TSNode := .mk ty text false row row .nil

/-- The tree-sitter CST of the Go declaration
func Divide(a, b int) (int, error) { ... } — two integer parameters in one
grouped type declaration and two return values. -/
def divideFuncNode : TSNode :=
  .mk "function_declaration" "func Divide(a, b int) (int, error) { ... }" false 0 2
    (forestOf
      [ tsLeaf "func" "func" 0,
        tsLeaf "identifier" "Divide" 0,
        .mk "parameter_list" "(a, b int)" false 0 0
          (forestOf
            [ tsLeaf "(" "(" 0,
              .mk "parameter_declaration" "a, b int" false 0 0
                (forestOf
                  [ tsLeaf "identifier" "a" 0,
                    tsLeaf "," "," 0,
                    tsLeaf "identifier" "b" 0,
                    tsLeaf "type_identifier" "int" 0 ]),
              tsLeaf ")" ")" 0 ]),
        .mk "parameter_list" "(int, error)" false 0 0
          (forestOf
            [ tsLeaf "(" "(" 0,
              .mk "parameter_declaration" "int" false 0 0
                (forestOf [tsLeaf "type_identifier" "int" 0]),
              tsLeaf "," "," 0,
              .mk "parameter_declaration" "error" false 0 0
                (forestOf [tsLeaf "type_identifier" "error" 0]),
              tsLeaf ")" ")" 0 ]),
        .mk "block" "{ ... }" false 0 2 .nil ])

/-- A Go source tree containing the Divide function. -/
def goSourceTree : TSNode := .mk "source_file" "" false 0 2 (forestOf [divideFuncNode])

/-- C8: extracting functions from the Go tree containing
func Divide(a, b int) (int, error) yields exactly one FunctionNode with
exactly two parameters — a and b, each carrying the shared type int — and
the return-type string "(int, error)" wrapping both component types in
parentheses joined by a comma. -/
theorem go_grouped_params_and_multi_return :
    (extract_functions goSourceTree "").length = 1
    ∧ (extract_functions goSourceTree "").map (fun f => f.parameters)
        = [[⟨"a", some "int", none, false⟩, ⟨"b", some "int", none, false⟩]]
    ∧ (extract_functions goSourceTree "").map (fun f => f.return_type)
        = [some "(int, error)"]
    ∧ (extract_functions goSourceTree "").map (fun f => f.name) = ["Divide"] :=
  ⟨rfl, rfl, rfl, rfl⟩

end CodeGraph
